import Mathlib

/-!
Verification of the TriggerMesh-style CloudEvents broker core: a shallow
embedding of `pkg/subscriptions` (subscription manager, filter
materialization, dispatch path) and `pkg/broker` (supervisor `Start`),
with theorems settling the specification claims.

External collaborators (the Knative `eventfilter`/`subscriptionsapi`
engine, the CloudEvents delivery client, `period.Parse`, the backend) are
embedded as an explicit environment `Env` of oracles, so every theorem
quantifies over their behavior.  Go maps are embedded as association
lists: the list order models one possible (nondeterministic) Go map
iteration order.
-/

/-! ## Configuration data model (`pkg/config`, consumed by the core) -/

/-- Backoff policies: `config.BackoffPolicyLinear`,
`config.BackoffPolicyExponential`, and the constant policy (the `default`
branch of the `switch` in `dispatchCloudEventToTarget`). -/
inductive BackoffPolicy where
  | linear
  | exponential
  | constant
deriving DecidableEq

/-- Delivery options of a target.  Go pointer fields (`*int32`,
`*BackoffPolicy`, `*string`) are embedded as `Option`; `nil` is `none`. -/
structure DeliveryOptions where
  retry : Option Int
  backoffPolicy : Option BackoffPolicy
  backoffDelay : Option String
  deadLetterURL : Option String
deriving DecidableEq

/-- A delivery target: URL plus optional delivery options. -/
structure Target where
  url : String
  deliveryOptions : Option DeliveryOptions
deriving DecidableEq

/-- `eventingv1.SubscriptionsAPIFilter`: a record of seven expression
shapes.  The Go `map[string]string` fields (`Exact`, `Prefix`, `Suffix`)
are embedded as association lists (list order = map iteration order);
`All`/`Any` are lists of sub-filters, `Not` an optional sub-filter,
`CESQL` a string. -/
inductive SAPIFilter where
  | mk (exact pfx sfx : List (String × String)) (all any : List SAPIFilter)
       (not : Option SAPIFilter) (cesql : String)

mutual

/-- Decidable (deep, structural) equality on filters, the embedding of
`reflect.DeepEqual` on this type. -/
def sapiDecEq : (a b : SAPIFilter) → Decidable (a = b)
  | .mk e1 p1 s1 a1 y1 n1 c1, .mk e2 p2 s2 a2 y2 n2 c2 =>
    have da : Decidable (a1 = a2) := sapiDecEqList a1 a2
    have dy : Decidable (y1 = y2) := sapiDecEqList y1 y2
    have dn : Decidable (n1 = n2) := sapiDecEqOpt n1 n2
    decidable_of_iff (e1 = e2 ∧ p1 = p2 ∧ s1 = s2 ∧ a1 = a2 ∧ y1 = y2 ∧ n1 = n2 ∧ c1 = c2)
      (by rw [SAPIFilter.mk.injEq])

/-- Decidable equality on filter lists. -/
def sapiDecEqList : (a b : List SAPIFilter) → Decidable (a = b)
  | [], [] => isTrue rfl
  | [], _ :: _ => isFalse (by simp)
  | _ :: _, [] => isFalse (by simp)
  | x :: xs, y :: ys =>
    have dx : Decidable (x = y) := sapiDecEq x y
    have dxs : Decidable (xs = ys) := sapiDecEqList xs ys
    decidable_of_iff (x = y ∧ xs = ys) (by rw [List.cons.injEq])

/-- Decidable equality on optional filters. -/
def sapiDecEqOpt : (a b : Option SAPIFilter) → Decidable (a = b)
  | none, none => isTrue rfl
  | none, some _ => isFalse (by simp)
  | some _, none => isFalse (by simp)
  | some x, some y =>
    have dx : Decidable (x = y) := sapiDecEq x y
    decidable_of_iff (x = y) (by rw [Option.some.injEq])

end

instance : DecidableEq SAPIFilter := sapiDecEq

/-- `config.Trigger`: a filter list (AND-combined) and a single target. -/
structure Trigger where
  filters : List SAPIFilter
  target : Target
deriving DecidableEq

/-- `config.Config`: the trigger table.  The Go `map[string]config.Trigger`
is an association list whose order models the map iteration order. -/
structure Config where
  triggers : List (String × Trigger)

/-! ## Events and the Knative filter engine (external collaborator)

The evaluation and construction behavior below embeds the Knative
`eventfilter`/`subscriptionsapi` package exactly where the repository
depends on its structure (nil handling of `NewNotFilter`, `And`/`Or`
combination, skip-on-nil in lists); the leaf constructors and the CESQL
engine are oracles in `Env`. -/

/-- An event's filterable attributes, as an association list. -/
abbrev Event := List (String × String)

/-- `eventfilter.FilterResult`. -/
inductive FilterResult where
  | noFilter
  | passFilter
  | failFilter
deriving DecidableEq

/-- `FilterResult.And`: `NoFilter` is neutral, anything not both-pass
fails. -/
def FilterResult.and : FilterResult → FilterResult → FilterResult
  | .noFilter, y => y
  | x, .noFilter => x
  | .passFilter, .passFilter => .passFilter
  | _, _ => .failFilter

/-- `FilterResult.Or`: `NoFilter` is neutral, any pass passes. -/
def FilterResult.or : FilterResult → FilterResult → FilterResult
  | .noFilter, y => y
  | x, .noFilter => x
  | .passFilter, _ => .passFilter
  | _, .passFilter => .passFilter
  | _, _ => .failFilter

/-- Materialized (compiled) filter tree, the embedding of the
`eventfilter.Filter` values built by `materializeSubscriptionsAPIFilter`.
`notF` carries an `Option` child: the code applies `NewNotFilter` to the
result of materializing the child without checking it for `nil`. -/
inductive MatFilter where
  | exactF (attr value : String)
  | pfxF (attr value : String)
  | sfxF (attr value : String)
  | allF (fs : List MatFilter)
  | anyF (fs : List MatFilter)
  | notF (child : Option MatFilter)
  | cesqlF (expr : String)

/-- Retry policy attached to a send context by
`cloudevents.ContextWithRetries*Backoff`. -/
structure RetryPolicy where
  policy : BackoffPolicy
  delay : Nat
  retries : Int
deriving DecidableEq

/-- The per-send context: target URL plus optional retry policy. -/
structure Ctx where
  url : String
  retryPolicy : Option RetryPolicy
deriving DecidableEq

/-- Outcome class of `ceClient.Request`: `cloudevents.IsACK`,
`IsNACK`, `IsUndelivered`, or none of them (the final `default`). -/
inductive SendRes where
  | ack
  | nack
  | undelivered
  | unknown
deriving DecidableEq

/-- Oracles for every external collaborator the core calls into:
leaf-filter constructors and the CESQL engine (Knative), `period.Parse`
(succeeds with an approximate duration, or fails), the delivery client
`ceClient.Request` (reply event and result class), and the registered
`CloudEventHandler` (whether it accepts a reply). -/
structure Env where
  exactOk : String → String → Bool
  pfxOk : String → String → Bool
  sfxOk : String → String → Bool
  cesqlOk : String → Bool
  cesqlEval : String → Event → FilterResult
  parsePeriod : String → Option Nat
  request : Ctx → Event → Option Event × SendRes
  handlerOk : Ctx → Event → Bool

/-- Attribute lookup on an event. -/
def lookupAttribute (e : Event) (attr : String) : Option String :=
  List.lookup attr e

mutual

/-- Evaluation of a materialized filter, embedding the Knative filter
implementations: missing attribute fails a leaf, `notF` of a `nil` child
returns `NoFilter`, `allF`/`anyF` fold with `And`/`Or` starting from
`NoFilter` and short-circuit. -/
def MatFilter.eval (env : Env) (e : Event) : MatFilter → FilterResult
  | .exactF a v =>
    if a = "" ∨ v = "" then .noFilter
    else match lookupAttribute e a with
      | none => .failFilter
      | some w => if w = v then .passFilter else .failFilter
  | .pfxF a v =>
    if a = "" ∨ v = "" then .noFilter
    else match lookupAttribute e a with
      | none => .failFilter
      | some w => if v.data.isPrefixOf w.data then .passFilter else .failFilter
  | .sfxF a v =>
    if a = "" ∨ v = "" then .noFilter
    else match lookupAttribute e a with
      | none => .failFilter
      | some w => if v.data.isSuffixOf w.data then .passFilter else .failFilter
  | .allF fs => evalAll env e fs .noFilter
  | .anyF fs => evalAny env e fs .noFilter
  | .notF none => .noFilter
  | .notF (some c) =>
    match c.eval env e with
    | .failFilter => .passFilter
    | .passFilter => .failFilter
    | .noFilter => .noFilter
  | .cesqlF s => env.cesqlEval s e

/-- `allFilter.Filter`: combine with `And`, short-circuiting on fail. -/
def evalAll (env : Env) (e : Event) : List MatFilter → FilterResult → FilterResult
  | [], acc => acc
  | f :: rest, acc =>
    let acc := acc.and (f.eval env e)
    if acc = .failFilter then .failFilter else evalAll env e rest acc

/-- `anyFilter.Filter`: combine with `Or`, short-circuiting on pass. -/
def evalAny (env : Env) (e : Event) : List MatFilter → FilterResult → FilterResult
  | [], acc => acc
  | f :: rest, acc =>
    let acc := acc.or (f.eval env e)
    if acc = .passFilter then .passFilter else evalAny env e rest acc

end

/-! ## Filter materialization (`materializeSubscriptionsAPIFilter`,
`materializeFiltersList`) -/

/-- The `for attribute, value := range` loop in the `Exact`/`Prefix`/
`Suffix` cases: each iteration overwrites the materialized filter; a
constructor error returns `nil` immediately. -/
def matLeaf (ok : String → String → Bool) (mk : String → String → MatFilter) :
    List (String × String) → Option MatFilter → Option MatFilter
  | [], acc => acc
  | (a, v) :: rest, _ => if ok a v then matLeaf ok mk rest (some (mk a v)) else none

mutual

/-- Embedding of `materializeSubscriptionsAPIFilter`: a `switch` on the
first non-empty shape.  Note the `Not` case wraps the materialization of
the child with no `nil` check, and an all-empty filter yields `nil`. -/
def materializeSubscriptionsAPIFilter (env : Env) : SAPIFilter → Option MatFilter
  | .mk ex pf sf al an nt cq =>
    if 0 < ex.length then matLeaf env.exactOk MatFilter.exactF ex none
    else if 0 < pf.length then matLeaf env.pfxOk MatFilter.pfxF pf none
    else if 0 < sf.length then matLeaf env.sfxOk MatFilter.sfxF sf none
    else if 0 < al.length then some (.allF (materializeFiltersList env al))
    else if 0 < an.length then some (.anyF (materializeFiltersList env an))
    else
      match nt with
      | some child => some (.notF (materializeSubscriptionsAPIFilter env child))
      | none =>
        if cq ≠ "" then
          if env.cesqlOk cq then some (.cesqlF cq) else none
        else none

/-- Embedding of `materializeFiltersList`: a filter that fails to
materialize is logged and skipped, the remaining ones are kept. -/
def materializeFiltersList (env : Env) : List SAPIFilter → List MatFilter
  | [] => []
  | f :: rest =>
    match materializeSubscriptionsAPIFilter env f with
    | none => materializeFiltersList env rest
    | some mf => mf :: materializeFiltersList env rest

end

/-! ## Subscriber dispatch path (`dispatchCloudEventToTarget`, `send`) -/

/-- Observable steps of the dispatch path: the lost-on-parse error log,
each invocation of `m.send` (with the context it is given), each hand-off
of a reply to the registered `CloudEventHandler`, and the final
`lost=true` error log. -/
inductive Step where
  | logLostParse
  | attempt (c : Ctx)
  | handlerCall (e : Event)
  | logLost
deriving DecidableEq

/-- Embedding of `m.send`: classify the `ceClient.Request` outcome.  An
ACK with a reply hands the reply to the handler and succeeds iff the
handler accepts it; an ACK without reply succeeds; NACK, Undelivered and
the unknown default all fail. -/
def send (env : Env) (ctx : Ctx) (e : Event) : List Step × Bool :=
  match env.request ctx e with
  | (res, .ack) =>
    match res with
    | some r => ([Step.handlerCall r], env.handlerOk ctx r)
    | none => ([], true)
  | (_, .undelivered) => ([], false)
  | (_, .nack) => ([], false)
  | (_, .unknown) => ([], false)

/-- Embedding of lines 156–183 of `dispatchCloudEventToTarget`: build the
send context.  When delivery options carry `retry ≥ 1` and a backoff
policy, `*target.DeliveryOptions.BackoffDelay` is dereferenced with no
`nil` check (`none` here = nil-pointer dereference); a parse failure logs
the event as lost and the code falls through, attaching a retry policy
with the zero duration. -/
def prepareCtx (env : Env) (target : Target) : Option (List Step × Ctx) :=
  let ctx : Ctx := { url := target.url, retryPolicy := none }
  match target.deliveryOptions with
  | none => some ([], ctx)
  | some opts =>
    match opts.retry with
    | none => some ([], ctx)
    | some r =>
      if 1 ≤ r then
        match opts.backoffPolicy with
        | none => some ([], ctx)
        | some pol =>
          match opts.backoffDelay with
          | none => none
          | some ds =>
            let parsed := env.parsePeriod ds
            let steps := match parsed with
              | none => [Step.logLostParse]
              | some _ => ([] : List Step)
            let delay := parsed.getD 0
            some (steps, { ctx with retryPolicy := some ⟨pol, delay, r⟩ })
      else some ([], ctx)

/-- Embedding of `dispatchCloudEventToTarget`: prepare the context,
attempt the primary send, fall back to the dead-letter URL when it is set
and non-empty (note the dead-letter context is rebuilt from the manager
context with no retry policy), and log the event lost otherwise.
`none` = the nil-pointer dereference in `prepareCtx`. -/
def dispatchCloudEventToTarget (env : Env) (target : Target) (e : Event) :
    Option (List Step) :=
  match prepareCtx env target with
  | none => none
  | some (pre, ctx) =>
    let r1 := send env ctx e
    let t1 := pre ++ Step.attempt ctx :: r1.1
    if r1.2 then some t1
    else
      match target.deliveryOptions with
      | some opts =>
        match opts.deadLetterURL with
        | some dl =>
          if dl ≠ "" then
            let ctx2 : Ctx := { url := dl, retryPolicy := none }
            let r2 := send env ctx2 e
            if r2.2 then some (t1 ++ Step.attempt ctx2 :: r2.1)
            else some (t1 ++ Step.attempt ctx2 :: r2.1 ++ [Step.logLost])
          else some (t1 ++ [Step.logLost])
        | none => some (t1 ++ [Step.logLost])
      | none => some (t1 ++ [Step.logLost])

/-- The send contexts of a dispatch trace, in order. -/
def attempts (tr : List Step) : List Ctx :=
  tr.filterMap fun s =>
    match s with
    | .attempt c => some c
    | _ => none

/-- The safety precondition on a target's delivery options: whenever
`retry` is present with value ≥ 1 and a backoff policy is present, the
backoff delay pointer must be non-nil. -/
def backoffPrecondition (t : Target) : Bool :=
  match t.deliveryOptions with
  | none => true
  | some o =>
    match o.retry, o.backoffPolicy with
    | some r, some _ => if 1 ≤ r then o.backoffDelay.isSome else true
    | _, _ => true

/-! ## Subscription manager state and reconciliation -/

/-- Modelled from the spec: the `subscriber` struct is not under `src/`
(only the manager is).  Per the spec a subscriber holds the trigger plus
fields compiled from it (filter tree, parsed backoff), swapped only by a
successful `updateTrigger`; we record the last successfully applied
trigger, which determines those compiled fields. -/
structure Subscriber where
  name : String
  trigger : Trigger
deriving DecidableEq

/-- The manager's mutable state: the `triggers` map (never assigned by
any code in `src/`; `New` leaves it nil) and the `subscribers` map, both
as association lists. -/
structure MState where
  triggers : List (String × Trigger)
  subscribers : List (String × Subscriber)

/-- Backend subscription operations performed during reconciliation. -/
inductive BOp where
  | subscribe (name : String)
  | unsubscribe (name : String)
deriving DecidableEq

/-- Embedding of `New`: the subscribers map is allocated empty and the
triggers map is left nil. -/
def newManager : MState := { triggers := [], subscribers := [] }

/-- First loop of `UpdateFromConfig`: drop every subscriber whose name is
not in the snapshot, calling `sub.unsubscribe()` (modelled from the spec
as a backend `Unsubscribe`) for each. -/
def removePass (cfg : List (String × Trigger)) :
    List (String × Subscriber) → List (String × Subscriber) × List BOp
  | [] => ([], [])
  | (k, s) :: rest =>
    let r := removePass cfg rest
    match List.lookup k cfg with
    | none => (r.1, BOp.unsubscribe k :: r.2)
    | some _ => ((k, s) :: r.1, r.2)

/-- Replace the stored trigger of subscriber `n` (the in-place mutation a
successful `s.updateTrigger(trigger)` performs on the existing
subscriber). -/
def setTrigger (subs : List (String × Subscriber)) (n : String) (t : Trigger) :
    List (String × Subscriber) :=
  subs.map fun p => if p.1 = n then (p.1, { p.2 with trigger := t }) else p

/-- Second loop of `UpdateFromConfig`, parameterized by `upd`, the
success predicate of `s.updateTrigger` (modelled from the spec: that
method is not under `src/`; per the spec it can fail on an invalid filter
or unparseable backoff).  A new name is set up and subscribed; a name
whose stored trigger is deeply equal to the snapshot's is a no-op; a
changed trigger is updated in place.  On any `updateTrigger` error the
code logs and RETURNS, so the remaining entries are not processed: the
third component reports whether the loop ran to completion. -/
def addPass (upd : Trigger → Bool) :
    List (String × Trigger) → List (String × Subscriber) →
      List (String × Subscriber) × List BOp × Bool
  | [], subs => (subs, [], true)
  | (name, trig) :: rest, subs =>
    match List.lookup name subs with
    | none =>
      if upd trig then
        let r := addPass upd rest (subs ++ [(name, ⟨name, trig⟩)])
        (r.1, BOp.subscribe name :: r.2.1, r.2.2)
      else (subs, [], false)
    | some s =>
      if s.trigger = trig then addPass upd rest subs
      else if upd trig then addPass upd rest (setTrigger subs name trig)
      else (subs, [], false)

/-- Embedding of `UpdateFromConfig`: removal pass, then add/update pass.
Only `subscribers` is written; `triggers` is not touched.  Returns the
new state and the backend operations performed, in order. -/
def UpdateFromConfig (upd : Trigger → Bool) (st : MState) (c : Config) :
    MState × List BOp :=
  let r1 := removePass c.triggers st.subscribers
  let r2 := addPass upd c.triggers r1.1
  ({ st with subscribers := r2.1 }, r1.2 ++ r2.2.1)

/-- Fold a sequence of configuration snapshots through
`UpdateFromConfig`. -/
def applyConfigs (upd : Trigger → Bool) (st : MState) : List Config → MState
  | [] => st
  | c :: rest => applyConfigs upd (UpdateFromConfig upd st c).1 rest

/-- Embedding of `Manager.DispatchCloudEvent`: iterate `m.triggers`,
evaluate `NewAllFilter(materializeFiltersList(...)...)` on the event,
skip on fail, and dispatch to the trigger's target otherwise.  Returns
one dispatch result per non-skipped trigger. -/
def DispatchCloudEvent (env : Env) (st : MState) (e : Event) :
    List (Option (List Step)) :=
  st.triggers.filterMap fun p =>
    if MatFilter.eval env e (.allF (materializeFiltersList env p.2.filters))
        = .failFilter then none
    else some (dispatchCloudEventToTarget env p.2.target e)

/-! ## Broker supervisor (`pkg/broker`, `Instance.Start`) -/

/-- The calls `Instance.Start` performs, in program order. -/
inductive StartAction where
  | backendInit
  | goBackendStart
  | addCallbackIngest
  | addCallbackSubscription
  | cwStart
  | registerProduceHandler
  | goIngestStart
  | groupWait
deriving DecidableEq

/-- Embedding of `Instance.Start`, parameterized by whether
`backend.Init` and `cw.Start` succeed.  Returns the trace of calls in
order and the error message, if any, of the early return. -/
def brokerStart (initOk cwOk : Bool) : List StartAction × Option String :=
  if !initOk then ([.backendInit], some "could not initialize backend")
  else
    let t := [StartAction.backendInit, .goBackendStart, .addCallbackIngest,
              .addCallbackSubscription, .cwStart]
    if !cwOk then (t, some "could not start configuration watcher")
    else (t ++ [.registerProduceHandler, .goIngestStart, .groupWait], none)

/-! ## Concrete instances used by witnesses and counterexamples -/

/-- A trivial environment: every construction succeeds, parsing succeeds,
every request is ACKed with no reply, the handler accepts everything. -/
def envTrivial : Env where
  exactOk := fun _ _ => true
  pfxOk := fun _ _ => true
  sfxOk := fun _ _ => true
  cesqlOk := fun _ => true
  cesqlEval := fun _ _ => .noFilter
  parsePeriod := fun _ => some 1
  request := fun _ _ => (none, .ack)
  handlerOk := fun _ _ => true

/-- Environment whose leaf constructors validate like the Knative ones:
they reject an empty attribute or value. -/
def envKnative : Env :=
  { envTrivial with
    exactOk := fun a v => !(a == "") && !(v == "")
    pfxOk := fun a v => !(a == "") && !(v == "")
    sfxOk := fun a v => !(a == "") && !(v == "") }

/-- Environment in which `period.Parse` always fails. -/
def envNoParse : Env := { envTrivial with parsePeriod := fun _ => none }

/-- Environment in which delivery to the primary target
`http://t` is undelivered while everything else is ACKed. -/
def envFailPrimary : Env :=
  { envTrivial with
    parsePeriod := fun _ => some 7
    request := fun c _ =>
      if c.url == "http://t" then (none, .undelivered) else (none, .ack) }

/-- Environment in which the primary target replies with an event and the
registered handler rejects every reply. -/
def envReplyReject : Env :=
  { envTrivial with
    request := fun c _ =>
      if c.url == "http://t" then (some [("id", "2")], .ack) else (none, .ack)
    handlerOk := fun _ _ => false }

/-- An exact-filter expression whose single entry has an empty attribute,
so its leaf constructor fails. -/
def fBad : SAPIFilter := .mk [("", "v")] [] [] [] [] none ""

/-- A well-formed exact-filter expression. -/
def fGood : SAPIFilter := .mk [("type", "created")] [] [] [] [] none ""

/-- A `Not` expression whose child fails to compile. -/
def fNotBad : SAPIFilter := .mk [] [] [] [] [] (some fBad) ""

/-- A trigger the modelled `updateTrigger` rejects (empty target URL). -/
def trigFail : Trigger := ⟨[], ⟨"", none⟩⟩

/-- Two valid triggers differing in their target URL. -/
def trigOkA : Trigger := ⟨[], ⟨"http://a", none⟩⟩

/-- See `trigOkA`. -/
def trigOkB : Trigger := ⟨[], ⟨"http://b", none⟩⟩

/-- An `updateTrigger` success predicate that rejects exactly the
triggers with an empty target URL. -/
def updCex : Trigger → Bool := fun t => !(t.target.url == "")

/-- Delivery options with retries enabled and a backoff delay present. -/
def optsRetryDL : DeliveryOptions :=
  { retry := some 2, backoffPolicy := some .linear,
    backoffDelay := some "PT1S", deadLetterURL := some "http://dl" }

/-- A target with retries and a dead-letter URL. -/
def tRetryDL : Target := { url := "http://t", deliveryOptions := some optsRetryDL }

/-- Delivery options with retries enabled whose backoff delay fails to
parse under `envNoParse`. -/
def optsBadDelay : DeliveryOptions :=
  { retry := some 1, backoffPolicy := some .constant,
    backoffDelay := some "bogus", deadLetterURL := none }

/-- A target whose backoff delay will fail to parse. -/
def tBadDelay : Target := { url := "http://t", deliveryOptions := some optsBadDelay }

/-- A target satisfying the backoff precondition. -/
def tSafe : Target :=
  { url := "http://t",
    deliveryOptions := some
      { retry := some 1, backoffPolicy := some .constant,
        backoffDelay := some "PT1S", deadLetterURL := none } }

/-- A target violating the backoff precondition: retries and a policy are
set but the backoff delay pointer is nil. -/
def tUnsafe : Target :=
  { url := "http://t",
    deliveryOptions := some
      { retry := some 1, backoffPolicy := some .constant,
        backoffDelay := none, deadLetterURL := none } }

/-- A target with no retry options but a dead-letter URL. -/
def tReplyDL : Target :=
  { url := "http://t",
    deliveryOptions := some
      { retry := none, backoffPolicy := none,
        backoffDelay := none, deadLetterURL := some "http://dl" } }

/-! ## Helper lemmas -/

/-- UpdateFromConfig only ever writes the subscribers map, so folding any
number of snapshots leaves the triggers map untouched. -/
theorem applyConfigs_preserves_triggers (upd : Trigger → Bool) (st : MState)
    (cfgs : List Config) : (applyConfigs upd st cfgs).triggers = st.triggers := by
  induction cfgs generalizing st with
  | nil => rfl
  | cons c rest ih => rw [applyConfigs, ih]; rfl

/-! ## Claims -/

/-- C5: the Manager.triggers map is never written by UpdateFromConfig
(which writes only subscribers), so starting from the constructed manager
any sequence of UpdateFromConfig calls leaves it empty and
DispatchCloudEvent iterates nothing and performs no target delivery. -/
theorem c5_triggers_never_written :
    (∀ upd st c, ((UpdateFromConfig upd st c).1).triggers = st.triggers) ∧
    (∀ upd cfgs env e,
      (applyConfigs upd newManager cfgs).triggers = [] ∧
      DispatchCloudEvent env (applyConfigs upd newManager cfgs) e = []) := by
  refine ⟨fun upd st c => rfl, fun upd cfgs env e => ?_⟩
  have h := applyConfigs_preserves_triggers upd newManager cfgs
  refine ⟨h, ?_⟩
  unfold DispatchCloudEvent
  rw [h]
  rfl

/-- C8: Instance.Start runs backend.Init first and returns its error
before spawning anything; on success it spawns backend.Start, registers
the ingest and subscription-manager callbacks, starts the config watcher
(returning its error there), registers backend.Produce as ingest's
handler, spawns ingest.Start, and waits for the group — in that order. -/
theorem c8_start_order :
    (∀ cwOk, brokerStart false cwOk
      = ([.backendInit], some "could not initialize backend")) ∧
    brokerStart true false
      = ([.backendInit, .goBackendStart, .addCallbackIngest,
          .addCallbackSubscription, .cwStart],
         some "could not start configuration watcher") ∧
    brokerStart true true
      = ([.backendInit, .goBackendStart, .addCallbackIngest,
          .addCallbackSubscription, .cwStart, .registerProduceHandler,
          .goIngestStart, .groupWait], none) :=
  ⟨fun _ => rfl, rfl, rfl⟩

/-- C4 (amended): a filter expression that fails to compile is logged and
skipped individually; the materialized list is exactly the list of
successful materializations, so a trigger with one failing expression
keeps a usable partial filter instead of being skipped. -/
theorem c4_failed_filter_skipped_individually (env : Env) (fs : List SAPIFilter) :
    materializeFiltersList env fs
      = fs.filterMap (materializeSubscriptionsAPIFilter env) := by
  induction fs with
  | nil => rfl
  | cons f rest ih =>
    rw [materializeFiltersList, List.filterMap_cons]
    cases hm : materializeSubscriptionsAPIFilter env f <;> simp [ih]

/-- C4 counterexample: in the trigger filter list `[fBad, fGood]` the
first expression fails to compile, yet the materialized list is the
nonempty partial tree containing only the second expression — it is
installed and evaluated (the event passes it and is dispatched), refuting
"the enclosing trigger is skipped entirely and no partial filter is ever
installed or evaluated". -/
theorem c4_counterexample :
    materializeSubscriptionsAPIFilter envKnative fBad = none ∧
    materializeFiltersList envKnative [fBad, fGood]
      = [MatFilter.exactF "type" "created"] ∧
    DispatchCloudEvent envKnative
        ⟨[("t", ⟨[fBad, fGood], ⟨"http://t", none⟩⟩)], []⟩
        [("type", "created")]
      = [some [Step.attempt ⟨"http://t", none⟩]] :=
  ⟨rfl, rfl, rfl⟩

/-- C9 (amended): applying Not to a child that failed to compile does NOT
propagate the failure: materialization wraps the nil child and yields a
usable filter that evaluates to NoFilter (it never fails an event). -/
theorem c9_not_swallows_child_failure (env : Env) (child : SAPIFilter)
    (cq : String) (h : materializeSubscriptionsAPIFilter env child = none) :
    materializeSubscriptionsAPIFilter env (.mk [] [] [] [] [] (some child) cq)
      = some (.notF none) ∧
    (∀ e, MatFilter.eval env e (.notF none) = .noFilter) := by
  refine ⟨?_, fun e => rfl⟩
  rw [materializeSubscriptionsAPIFilter]
  simp [h]

/-- C9 witness: instantiate the amended theorem at the concrete failing
child `fBad`. -/
theorem c9_witness :
    materializeSubscriptionsAPIFilter envKnative
        (.mk [] [] [] [] [] (some fBad) "")
      = some (.notF none) ∧
    (∀ e, MatFilter.eval envKnative e (.notF none) = .noFilter) :=
  c9_not_swallows_child_failure envKnative fBad "" rfl

/-- C9 counterexample: the child `fBad` fails to compile, yet
materializing `Not(fBad)` yields a non-nil (usable) filter, and that
filter does not fail events — refuting that the failure propagates and
makes the whole filter unusable. -/
theorem c9_counterexample :
    materializeSubscriptionsAPIFilter envKnative fBad = none ∧
    materializeSubscriptionsAPIFilter envKnative fNotBad ≠ none ∧
    MatFilter.eval envKnative [] (.notF none) ≠ .failFilter :=
  ⟨rfl, by rw [show materializeSubscriptionsAPIFilter envKnative fNotBad
      = some (.notF none) from rfl]; simp, by decide⟩

/-- Once context preparation succeeds, the dispatch path always reaches a
terminal outcome (it never returns the nil-dereference marker). -/
theorem dispatch_some_of_prepare (env : Env) (t : Target) (e : Event)
    (pre : List Step) (c : Ctx) (h : prepareCtx env t = some (pre, c)) :
    dispatchCloudEventToTarget env t e ≠ none := by
  simp only [dispatchCloudEventToTarget, h]
  repeat' split
  all_goals simp

/-- Context preparation hits the nil dereference exactly when the backoff
precondition fails. -/
theorem prepareCtx_none_iff (env : Env) (t : Target) :
    prepareCtx env t = none ↔ backoffPrecondition t = false := by
  rcases t with ⟨url, _ | ⟨r, p, d, dl⟩⟩
  · simp [prepareCtx, backoffPrecondition]
  · rcases r with _ | r
    · simp [prepareCtx, backoffPrecondition]
    · rcases p with _ | p
      · by_cases hr : (1 : Int) ≤ r <;>
          simp [prepareCtx, backoffPrecondition, hr]
      · by_cases hr : (1 : Int) ≤ r
        · rcases d with _ | d <;> simp [prepareCtx, backoffPrecondition, hr]
        · simp [prepareCtx, backoffPrecondition, hr]

/-- C10: dispatchCloudEventToTarget dereferences BackoffDelay without a
nil check inside the retry branch, so it is nil-safe exactly under the
precondition that BackoffDelay is non-nil whenever Retry is non-nil with
value ≥ 1 and BackoffPolicy is non-nil: under the precondition no
dispatch hits the dereference marker, and whenever the precondition fails
every dispatch to that target does. -/
theorem c10_backoff_deref_guard (env : Env) (t : Target) (e : Event) :
    (backoffPrecondition t = true → dispatchCloudEventToTarget env t e ≠ none) ∧
    (backoffPrecondition t = false → dispatchCloudEventToTarget env t e = none) := by
  constructor
  · intro hb
    rcases hp : prepareCtx env t with _ | ⟨pre, c⟩
    · have := (prepareCtx_none_iff env t).mp hp
      rw [this] at hb
      exact Bool.noConfusion hb
    · exact dispatch_some_of_prepare env t e pre c hp
  · intro hb
    have hp : prepareCtx env t = none := (prepareCtx_none_iff env t).mpr hb
    simp [dispatchCloudEventToTarget, hp]

/-- C10 witness: the theorem applied to a target satisfying the
precondition and to one violating it. -/
theorem c10_witness :
    dispatchCloudEventToTarget envTrivial tSafe [] ≠ none ∧
    dispatchCloudEventToTarget envTrivial tUnsafe [] = none :=
  ⟨(c10_backoff_deref_guard envTrivial tSafe []).1 rfl,
   (c10_backoff_deref_guard envTrivial tUnsafe []).2 rfl⟩

/-- C7: when a trigger name is in both the subscriber table and the
snapshot, a deeply-equal trigger is a no-op and a different trigger is
swapped in place on the existing subscriber; in both cases no backend
Subscribe or Unsubscribe is performed, preserving the backend cursor. -/
theorem c7_inplace_update_preserves_cursor (upd : Trigger → Bool) (n : String)
    (s : Subscriber) (t : Trigger) :
    (s.trigger = t →
      UpdateFromConfig upd ⟨[], [(n, s)]⟩ ⟨[(n, t)]⟩ = (⟨[], [(n, s)]⟩, [])) ∧
    (s.trigger ≠ t → upd t = true →
      UpdateFromConfig upd ⟨[], [(n, s)]⟩ ⟨[(n, t)]⟩
        = (⟨[], [(n, { s with trigger := t })]⟩, [])) := by
  constructor
  · intro h
    simp [UpdateFromConfig, removePass, addPass, List.lookup, h]
  · intro h hu
    simp [UpdateFromConfig, removePass, addPass, List.lookup, h, hu, setTrigger]

/-- C7 witness: an unchanged trigger is a no-op and a changed one is
updated in place; neither emits a backend operation. -/
theorem c7_witness :
    UpdateFromConfig updCex ⟨[], [("x", ⟨"x", trigOkA⟩)]⟩ ⟨[("x", trigOkA)]⟩
      = (⟨[], [("x", ⟨"x", trigOkA⟩)]⟩, []) ∧
    UpdateFromConfig updCex ⟨[], [("x", ⟨"x", trigOkA⟩)]⟩ ⟨[("x", trigOkB)]⟩
      = (⟨[], [("x", ⟨"x", trigOkB⟩)]⟩, []) :=
  ⟨(c7_inplace_update_preserves_cursor updCex "x" ⟨"x", trigOkA⟩ trigOkA).1 rfl,
   (c7_inplace_update_preserves_cursor updCex "x" ⟨"x", trigOkA⟩ trigOkB).2
     (by decide) rfl⟩

/-- C1 (amended): an updateTrigger error during the add/update pass of
UpdateFromConfig aborts the pass: entries processed before the failing
one keep their reconciliation, the failing trigger is skipped — not
created when its name is new, left in its prior state when a subscriber
for it already exists — and every entry after it in the iteration order
is not reconciled at all.  The last hypothesis covers both failure
paths: it is vacuous when the name is absent from the subscriber table,
and when a subscriber exists it requires the stored trigger to differ,
which is exactly when updateTrigger is invoked. -/
theorem c1_setup_error_aborts_pass (upd : Trigger → Bool)
    (pre post : List (String × Trigger)) (n : String) (t : Trigger) :
    ∀ subs subs' ops, addPass upd pre subs = (subs', ops, true) →
      upd t = false →
      (∀ s, List.lookup n subs' = some s → s.trigger ≠ t) →
      addPass upd (pre ++ (n, t) :: post) subs = (subs', ops, false) := by
  induction pre with
  | nil =>
    intro subs subs' ops h1 hupd hprior
    rw [addPass] at h1
    injection h1 with h1a h1b
    injection h1b with h1c h1d
    subst h1a h1c
    cases hl : List.lookup n subs with
    | none => simp [addPass, hl, hupd]
    | some s =>
      have hne := hprior s hl
      simp [addPass, hl, hne, hupd]
  | cons p rest ih =>
    intro subs subs' ops h1 hupd hprior
    obtain ⟨m, tr⟩ := p
    rw [List.cons_append]
    cases hl : List.lookup m subs with
    | none =>
      by_cases hu : upd tr = true
      · rcases hr : addPass upd rest (subs ++ [(m, ⟨m, tr⟩)]) with ⟨s1, o1, d1⟩
        simp only [addPass, hl, hu, eq_self_iff_true, if_true, hr,
          Prod.mk.injEq] at h1
        obtain ⟨h1a, h1c, h1d⟩ := h1
        subst h1a
        subst h1c
        subst h1d
        simp only [addPass, hl, hu, eq_self_iff_true, if_true]
        have hx := ih (subs ++ [(m, { name := m, trigger := tr })]) s1 o1 hr
          hupd hprior
        rw [hx]
      · exfalso
        simp [addPass, hl, hu] at h1
    | some s =>
      by_cases he : s.trigger = tr
      · simp only [addPass, hl, he, eq_self_iff_true, if_true] at h1 ⊢
        exact ih subs subs' ops h1 hupd hprior
      · by_cases hu : upd tr = true
        · simp only [addPass, hl] at h1 ⊢
          rw [if_neg he] at h1 ⊢
          simp only [hu, eq_self_iff_true, if_true] at h1 ⊢
          exact ih (setTrigger subs m tr) subs' ops h1 hupd hprior
        · exfalso
          simp [addPass, hl, he, hu] at h1

/-- C1 witness: the amended theorem applied at two concrete snapshots
whose first entry fails setup — once for a new trigger name (no
subscriber is created) and once for a name whose existing subscriber is
left in its prior state with its prior trigger. -/
theorem c1_witness :
    addPass updCex [("bad", trigFail), ("good", trigOkA)] []
      = ([], [], false) ∧
    addPass updCex [("bad", trigFail), ("good", trigOkB)]
        [("bad", ⟨"bad", trigOkA⟩)]
      = ([("bad", ⟨"bad", trigOkA⟩)], [], false) :=
  ⟨c1_setup_error_aborts_pass updCex [] [("good", trigOkA)] "bad" trigFail
      [] [] [] rfl rfl (fun s h => nomatch h),
   c1_setup_error_aborts_pass updCex [] [("good", trigOkB)] "bad" trigFail
      [("bad", ⟨"bad", trigOkA⟩)] [("bad", ⟨"bad", trigOkA⟩)] [] rfl rfl
      (fun s h => by
        injection h with h2
        rw [← h2]
        decide)⟩

/-- C1 counterexample: a snapshot containing the failing trigger "bad"
followed by the valid trigger "good", reconciled from a fresh manager,
leaves "good" entirely unreconciled (no subscriber, no backend
subscribe), although reconciling "good" alone would subscribe it —
refuting that reconciliation continues for every other trigger. -/
theorem c1_counterexample :
    (UpdateFromConfig updCex newManager
        ⟨[("bad", trigFail), ("good", trigOkA)]⟩).1.subscribers = [] ∧
    (UpdateFromConfig updCex newManager
        ⟨[("bad", trigFail), ("good", trigOkA)]⟩).2 = [] ∧
    updCex trigOkA = true ∧
    (UpdateFromConfig updCex newManager ⟨[("good", trigOkA)]⟩).1.subscribers
      = [("good", ⟨"good", trigOkA⟩)] :=
  ⟨rfl, rfl, rfl, rfl⟩

/-- Attempts of an empty trace. -/
@[simp] theorem attempts_nil : attempts [] = [] := rfl

/-- Attempts distribute over appended traces. -/
@[simp] theorem attempts_append (l1 l2 : List Step) :
    attempts (l1 ++ l2) = attempts l1 ++ attempts l2 := by
  simp [attempts]

/-- A send attempt contributes its context. -/
@[simp] theorem attempts_attempt_cons (c : Ctx) (l : List Step) :
    attempts (Step.attempt c :: l) = c :: attempts l := by
  simp [attempts]

/-- The parse-failure log is not a send attempt. -/
@[simp] theorem attempts_logLostParse_cons (l : List Step) :
    attempts (Step.logLostParse :: l) = attempts l := by
  simp [attempts]

/-- The lost log is not a send attempt. -/
@[simp] theorem attempts_logLost_cons (l : List Step) :
    attempts (Step.logLost :: l) = attempts l := by
  simp [attempts]

/-- A handler call is not a send attempt. -/
@[simp] theorem attempts_handlerCall_cons (e : Event) (l : List Step) :
    attempts (Step.handlerCall e :: l) = attempts l := by
  simp [attempts]

/-- The trace of a single send contains no dispatch-layer steps: no
attempt markers and no parse-failure log. -/
theorem send_trace_clean (env : Env) (c : Ctx) (e : Event) :
    attempts (send env c e).1 = [] ∧ Step.logLostParse ∉ (send env c e).1 := by
  unfold send
  rcases env.request c e with ⟨res, r⟩
  cases r <;> cases res <;> simp [attempts]

/-- The pre-steps of a successful context preparation contain no send
attempt. -/
theorem prepareCtx_attempts_nil (env : Env) (t : Target) (pre : List Step)
    (c : Ctx) (h : prepareCtx env t = some (pre, c)) : attempts pre = [] := by
  obtain ⟨url, _ | ⟨_ | r, p, d, dl⟩⟩ := t
  · simp only [prepareCtx, Option.some.injEq, Prod.mk.injEq] at h
    rw [← h.1]
    rfl
  · simp only [prepareCtx, Option.some.injEq, Prod.mk.injEq] at h
    rw [← h.1]
    rfl
  · by_cases hr : (1 : Int) ≤ r
    · rcases p with _ | p
      · simp only [prepareCtx, hr, if_true, Option.some.injEq,
          Prod.mk.injEq] at h
        rw [← h.1]
        rfl
      · rcases d with _ | d
        · simp [prepareCtx, hr] at h
        · simp only [prepareCtx, hr, if_true, Option.some.injEq,
            Prod.mk.injEq] at h
          rw [← h.1]
          cases env.parsePeriod d <;> rfl
    · simp only [prepareCtx, hr, if_false, Option.some.injEq,
        Prod.mk.injEq] at h
      rw [← h.1]
      rfl

/-- Every dispatch that passes context preparation performs the primary
send attempt with the prepared context, then continues. -/
theorem dispatch_shape (env : Env) (t : Target) (e : Event) (pre : List Step)
    (c : Ctx) (h : prepareCtx env t = some (pre, c)) :
    ∃ rest, dispatchCloudEventToTarget env t e
      = some (pre ++ Step.attempt c :: rest) := by
  obtain ⟨url, dopts⟩ := t
  simp only [dispatchCloudEventToTarget, h]
  by_cases hs : (send env c e).2 = true
  · rw [if_pos hs]
    exact ⟨(send env c e).1, rfl⟩
  · rw [if_neg hs]
    rcases dopts with _ | ⟨r, p, d, _ | dl⟩
    · exact ⟨(send env c e).1 ++ [Step.logLost], by simp⟩
    · exact ⟨(send env c e).1 ++ [Step.logLost], by simp⟩
    · dsimp only
      by_cases hne : dl ≠ ""
      · rw [if_pos hne]
        by_cases hs2 : (send env ⟨dl, none⟩ e).2 = true
        · rw [if_pos hs2]
          exact ⟨(send env c e).1
              ++ Step.attempt ⟨dl, none⟩ :: (send env ⟨dl, none⟩ e).1,
            by simp⟩
        · rw [if_neg hs2]
          exact ⟨(send env c e).1
              ++ Step.attempt ⟨dl, none⟩
                :: ((send env ⟨dl, none⟩ e).1 ++ [Step.logLost]),
            by simp⟩
      · rw [if_neg hne]
        exact ⟨(send env c e).1 ++ [Step.logLost], by simp⟩

/-- C2 (amended): when the target's backoff delay fails to parse, the
event is logged as lost but delivery is NOT skipped: the code falls
through, attaches a retry policy with zero delay, and still attempts the
send to the target. -/
theorem c2_parse_failure_still_sends (env : Env) (t : Target) (e : Event)
    (opts : DeliveryOptions) (r : Int) (pol : BackoffPolicy) (ds : String)
    (h1 : t.deliveryOptions = some opts) (h2 : opts.retry = some r)
    (h3 : 1 ≤ r) (h4 : opts.backoffPolicy = some pol)
    (h5 : opts.backoffDelay = some ds) (h6 : env.parsePeriod ds = none) :
    prepareCtx env t = some ([Step.logLostParse], ⟨t.url, some ⟨pol, 0, r⟩⟩) ∧
    ∃ tr, dispatchCloudEventToTarget env t e = some tr ∧
      Step.logLostParse ∈ tr ∧
      (attempts tr).head? = some ⟨t.url, some ⟨pol, 0, r⟩⟩ := by
  have hp : prepareCtx env t
      = some ([Step.logLostParse], ⟨t.url, some ⟨pol, 0, r⟩⟩) := by
    simp [prepareCtx, h1, h2, h3, h4, h5, h6]
  obtain ⟨rest, hd⟩ := dispatch_shape env t e _ _ hp
  exact ⟨hp, _, hd, by simp, by simp⟩

/-- C2 witness: the amended theorem at a concrete unparseable delay. -/
theorem c2_witness :
    prepareCtx envNoParse tBadDelay
      = some ([Step.logLostParse],
              ⟨tBadDelay.url, some ⟨BackoffPolicy.constant, 0, 1⟩⟩) ∧
    ∃ tr, dispatchCloudEventToTarget envNoParse tBadDelay [] = some tr ∧
      Step.logLostParse ∈ tr ∧
      (attempts tr).head?
        = some ⟨tBadDelay.url, some ⟨BackoffPolicy.constant, 0, 1⟩⟩ :=
  c2_parse_failure_still_sends envNoParse tBadDelay [] optsBadDelay 1
    BackoffPolicy.constant "bogus" rfl rfl (by decide) rfl rfl rfl

/-- C2 counterexample: for the concrete target whose backoff delay does
not parse, the dispatch trace contains both the lost log AND a send
attempt to the target — refuting that no send attempt is made. -/
theorem c2_counterexample :
    dispatchCloudEventToTarget envNoParse tBadDelay []
      = some [Step.logLostParse,
              Step.attempt ⟨"http://t", some ⟨BackoffPolicy.constant, 0, 1⟩⟩] ∧
    attempts [Step.logLostParse,
              Step.attempt ⟨"http://t", some ⟨BackoffPolicy.constant, 0, 1⟩⟩]
      ≠ [] :=
  ⟨rfl, by simp⟩

/-- C3 (amended): on a failed primary send with a non-nil, non-empty
dead-letter URL, the same event is re-sent to the dead-letter URL, but
with a fresh context carrying NO retry policy: the primary retry policy
is not applied to the dead-letter send. -/
theorem c3_deadletter_without_retry_policy (env : Env) (t : Target) (e : Event)
    (opts : DeliveryOptions) (dl : String) (pre : List Step) (c : Ctx)
    (h1 : t.deliveryOptions = some opts) (h2 : opts.deadLetterURL = some dl)
    (h3 : dl ≠ "") (h4 : prepareCtx env t = some (pre, c))
    (h5 : (send env c e).2 = false) :
    ∃ tr, dispatchCloudEventToTarget env t e = some tr ∧
      attempts tr = [c, ⟨dl, none⟩] := by
  have hpre := prepareCtx_attempts_nil env t pre c h4
  have hs1 := (send_trace_clean env c e).1
  have hs2 := (send_trace_clean env ⟨dl, none⟩ e).1
  simp only [dispatchCloudEventToTarget, h4, h5, Bool.false_eq_true, if_false,
    h1, h2]
  rw [if_pos h3]
  by_cases hb : (send env ⟨dl, none⟩ e).2 = true
  · rw [if_pos hb]
    exact ⟨_, rfl, by simp [hpre, hs1, hs2]⟩
  · rw [if_neg hb]
    exact ⟨_, rfl, by simp [hpre, hs1, hs2]⟩

/-- C3 witness: the amended theorem at a concrete failing primary with a
retry policy and a dead-letter URL. -/
theorem c3_witness :
    ∃ tr, dispatchCloudEventToTarget envFailPrimary tRetryDL [] = some tr ∧
      attempts tr
        = [⟨"http://t", some ⟨BackoffPolicy.linear, 7, 2⟩⟩,
           ⟨"http://dl", none⟩] :=
  c3_deadletter_without_retry_policy envFailPrimary tRetryDL [] optsRetryDL
    "http://dl" [] ⟨"http://t", some ⟨BackoffPolicy.linear, 7, 2⟩⟩
    rfl rfl (by decide) rfl rfl

/-- C3 counterexample: for a concrete dispatch whose primary send (with a
linear retry policy) fails, the dead-letter attempt is made with a
context whose retry policy is `none`, different from the primary's —
refuting "the same retry policy". -/
theorem c3_counterexample :
    dispatchCloudEventToTarget envFailPrimary tRetryDL []
      = some [Step.attempt ⟨"http://t", some ⟨BackoffPolicy.linear, 7, 2⟩⟩,
              Step.attempt ⟨"http://dl", none⟩] ∧
    (Ctx.mk "http://dl" none).retryPolicy
      ≠ (Ctx.mk "http://t" (some ⟨BackoffPolicy.linear, 7, 2⟩)).retryPolicy :=
  ⟨rfl, by decide⟩

/-- C6: an ACK with a reply hands the reply to the registered handler and
the delivery succeeds iff the handler accepts it; an ACK without reply
succeeds; a non-ACK outcome is a failure; and when the handler rejects
the reply the dispatch path proceeds to the dead-letter target. -/
theorem c6_ack_reply_handling (env : Env) (ctx : Ctx) (e : Event) :
    (∀ r, env.request ctx e = (some r, .ack) →
      send env ctx e = ([Step.handlerCall r], env.handlerOk ctx r)) ∧
    (env.request ctx e = (none, .ack) → send env ctx e = ([], true)) ∧
    ((env.request ctx e).2 ≠ .ack → (send env ctx e).2 = false) ∧
    (∀ t opts dl r, t.deliveryOptions = some opts →
      opts.deadLetterURL = some dl → dl ≠ "" →
      prepareCtx env t = some ([], ctx) →
      env.request ctx e = (some r, .ack) → env.handlerOk ctx r = false →
      ∃ tr, dispatchCloudEventToTarget env t e = some tr ∧
        Step.handlerCall r ∈ tr ∧ Ctx.mk dl none ∈ attempts tr) := by
  refine ⟨?_, ?_, ?_, ?_⟩
  · intro r hr
    simp [send, hr]
  · intro hr
    simp [send, hr]
  · intro hne
    rcases hreq : env.request ctx e with ⟨res, rr⟩
    rw [hreq] at hne
    simp only [send, hreq]
    cases rr
    · exact absurd rfl hne
    · cases res <;> rfl
    · cases res <;> rfl
    · cases res <;> rfl
  · intro t opts dl r hdo hdl hne hp hreq hh
    have hsend : send env ctx e = ([Step.handlerCall r], false) := by
      simp [send, hreq, hh]
    simp only [dispatchCloudEventToTarget, hp, hsend, Bool.false_eq_true,
      if_false, hdo, hdl]
    rw [if_pos hne]
    by_cases hb : (send env ⟨dl, none⟩ e).2 = true
    · rw [if_pos hb]
      exact ⟨_, rfl, by simp, by simp⟩
    · rw [if_neg hb]
      exact ⟨_, rfl, by simp, by simp⟩

/-- C6 witness: the theorem at a concrete environment whose primary
target ACKs with a reply that the handler rejects; the dispatch proceeds
to the dead-letter URL. -/
theorem c6_witness :
    send envReplyReject ⟨"http://t", none⟩ []
      = ([Step.handlerCall [("id", "2")]], false) ∧
    (∃ tr, dispatchCloudEventToTarget envReplyReject tReplyDL [] = some tr ∧
      Step.handlerCall [("id", "2")] ∈ tr ∧
      Ctx.mk "http://dl" none ∈ attempts tr) :=
  ⟨(c6_ack_reply_handling envReplyReject ⟨"http://t", none⟩ []).1
      [("id", "2")] rfl,
   (c6_ack_reply_handling envReplyReject ⟨"http://t", none⟩ []).2.2.2
      tReplyDL _ "http://dl" [("id", "2")] rfl rfl (by decide) rfl rfl rfl⟩
